import Mathlib

/-!
Verification development for the performance-task designer repository.

The definitions below are a shallow embedding of the TypeScript sources:
  src/lib/langchain/schemas.ts    (data model)
  src/lib/langchain/memory.ts     (PerformanceTaskMemory, InMemoryMemory)
  src/lib/langchain/validators.ts (SimpleRuleValidator, LLMStepValidator)
  src/lib/langchain/service.ts    (PerformanceTaskService)
  src/app/api/curriculum/route.ts (POST handler, message-processing branch)

External effects are made explicit: the language-model completion service is
modelled by a `ChainEnv` record of `Option` results (`none` models the chain
invocation throwing), and regular-expression tests in the rule validator are
modelled as Boolean tests on the cleaned input string.
-/

/-- Embeds `PerformanceTaskStepType` from schemas.ts: the fixed step ordering. -/
inductive PerformanceTaskStepType where
  | task_ideas
  | focus_topics
  | product_options
  | requirements
  | rubric
  | performance_task_complete
deriving DecidableEq, Repr

/-- Position of a step in the fixed ordering
`[task_ideas, focus_topics, product_options, requirements, rubric, performance_task_complete]`. -/
def stepIndex : PerformanceTaskStepType → Nat
  | .task_ideas => 0
  | .focus_topics => 1
  | .product_options => 2
  | .requirements => 3
  | .rubric => 4
  | .performance_task_complete => 5

/-- Embeds `TaskIdeaSchema` from schemas.ts. -/
structure TaskIdea where
  id : Nat
  title : String
  description : String
  role : String
  audience : String
  purpose : String
deriving DecidableEq, Repr

/-- Embeds `TaskIdeasSchema` from schemas.ts. -/
structure TaskIdeas where
  ideas : List TaskIdea
deriving DecidableEq, Repr

/-- Embeds `FocusTopicSchema` from schemas.ts. -/
structure FocusTopic where
  id : Nat
  topic : String
  description : String
deriving DecidableEq, Repr

/-- Embeds `FocusTopicsSchema` from schemas.ts. -/
structure FocusTopics where
  topics : List FocusTopic
deriving DecidableEq, Repr

/-- Embeds `ProductOptionSchema` from schemas.ts. -/
structure ProductOption where
  id : Nat
  title : String
  description : String
deriving DecidableEq, Repr

/-- Embeds `ProductOptionsSchema` from schemas.ts. -/
structure ProductOptions where
  options : List ProductOption
deriving DecidableEq, Repr

/-- Embeds `RubricCriterionSchema` from schemas.ts. -/
structure RubricCriterion where
  name : String
  description : String
  orderNumber : Nat
deriving DecidableEq, Repr

/-- Embeds `PerformanceTaskSchema` from schemas.ts: the assembled final summary. -/
structure PerformanceTask where
  title : String
  subtitle : String
  description : String
  purpose : String
  requirements : String
  successCriteria : String
  suggestedFocusTopic : String
  rubricTitle : String
  rubricDescription : String
  rubricCriteria : List RubricCriterion
deriving DecidableEq, Repr

/-- The `unit` field of `PerformanceTaskUnitSchema` (title and grade name). -/
structure UnitInfo where
  title : String
  gradeName : String
deriving DecidableEq, Repr

/-- Embeds `PerformanceTaskUnitSchema` from schemas.ts, restricted to the fields the
service reads or writes (the optional `selectedTaskIdea`, `selectedFocusTopics`
and `selectedProductOptions` fields of the schema are never populated on the
unit record by any code path; selections live in the key/value store). -/
structure PerformanceTaskUnit where
  topic : String
  currentStep : PerformanceTaskStepType
  performanceTask : Option PerformanceTask := none
  unitInfo : Option UnitInfo := none
deriving DecidableEq, Repr

/-- A transcript entry role (`"user" | "assistant"` in memory.ts). -/
inductive ChatRole where
  | user
  | assistant
deriving DecidableEq, Repr

/-- One entry of the conversation history kept by `PerformanceTaskMemory`. -/
structure ChatMessage where
  role : ChatRole
  content : String
deriving DecidableEq, Repr

/-- The keys the service ever reads from or writes to the backing
`InMemoryMemory` key/value store, with `none` modelling an absent key
(a JavaScript `undefined` read). -/
structure KVStore where
  taskIdeas : Option (List TaskIdea) := none
  selectedTaskIdea : Option TaskIdea := none
  focusTopics : Option (List FocusTopic) := none
  selectedFocusTopics : Option (List FocusTopic) := none
  productOptions : Option (List ProductOption) := none
  selectedProductOptions : Option (List ProductOption) := none
  requirements : Option String := none
  rubricInfo : Option String := none
deriving DecidableEq, Repr

/-- Embeds `PerformanceTaskMemory` from memory.ts: the key/value store, the
performance-task unit record, and the conversation history. -/
structure PerformanceTaskMemory where
  store : KVStore
  performanceTaskUnit : PerformanceTaskUnit
  conversationHistory : List ChatMessage
deriving DecidableEq, Repr

/-- Embeds `PerformanceTaskMemory.addMessage` from memory.ts. -/
def PerformanceTaskMemory.addMessage (m : PerformanceTaskMemory) (role : ChatRole)
    (content : String) : PerformanceTaskMemory :=
  { m with conversationHistory := m.conversationHistory ++ [⟨role, content⟩] }

/-- Embeds `PerformanceTaskMemory.setCurrentStep` from memory.ts (lines 79-81): an
unconditional assignment of `currentStep` with no validation of any kind
(the source casts the string argument and assigns it). -/
def PerformanceTaskMemory.setCurrentStep (m : PerformanceTaskMemory)
    (step : PerformanceTaskStepType) : PerformanceTaskMemory :=
  { m with performanceTaskUnit := { m.performanceTaskUnit with currentStep := step } }

/-- A JSON value appearing in the object built by `PerformanceTaskMemory.toJSON`
or read back by the route handler (string values are included because the route
compares a looked-up field with a string constant). -/
inductive JsonVal where
  | unitVal (u : PerformanceTaskUnit)
  | historyVal (h : List ChatMessage)
  | strVal (s : String)
deriving DecidableEq, Repr

/-- Embeds `PerformanceTaskMemory.toJSON` from memory.ts (lines 112-117): the object
has exactly the two keys `performanceTaskUnit` and `conversationHistory`. -/
def PerformanceTaskMemory.toJSON (m : PerformanceTaskMemory) : List (String × JsonVal) :=
  [("performanceTaskUnit", .unitVal m.performanceTaskUnit),
   ("conversationHistory", .historyVal m.conversationHistory)]

/-- JavaScript property access on a JSON object: `none` models `undefined`. -/
def jsonLookup (obj : List (String × JsonVal)) (key : String) : Option JsonVal :=
  (obj.find? (fun kv => kv.1 == key)).map (fun kv => kv.2)

/-- The digit characters of the maximal digit runs of a character list, in
order: the semantics of the JavaScript `match` with a global digits pattern.
`cur` accumulates the current run in reverse. -/
def digitRunsAux : List Char → List Char → List (List Char)
  | [], cur => if cur.isEmpty then [] else [cur.reverse]
  | c :: cs, cur =>
    if c.isDigit then digitRunsAux cs (c :: cur)
    else if cur.isEmpty then digitRunsAux cs [] else cur.reverse :: digitRunsAux cs []

/-- Decimal value of a digit run: the semantics of `parseInt(run, 10)` on a
string of decimal digits (ids in this program are small, so the IEEE-754
precision loss of `parseInt` on huge numerals is not modelled). -/
def digitsToNat (l : List Char) : Nat :=
  l.foldl (fun acc c => acc * 10 + (c.toNat - Char.toNat '0')) 0

/-- All maximal digit runs of a string, parsed: `s.match(` the global digits
pattern `).map(n => parseInt(n, 10))`, with `[]` for a `null` match result. -/
def extractDigitRuns (s : String) : List Nat :=
  (digitRunsAux s.data []).map digitsToNat

/-- The first digit run of a string, parsed: `s.match(` the digits pattern `)`
followed by `parseInt` on the first match, `none` when there is no digit. -/
def firstDigitRun (s : String) : Option Nat :=
  (extractDigitRuns s).head?

/-- Embeds `Array.prototype.join(", ")` on a list of ids rendered in decimal, as the
service applies to `validationResult.currentStepData.selectedIds`. -/
def joinIds (ids : List Nat) : String :=
  String.intercalate ", " (ids.map toString)

/-- The data the validators may attach to a result: either the extracted
`selectedIds` or a `refinementRequest` (the two object shapes the rule
validator stores in `currentStepData`). -/
inductive CurrentStepData where
  | selectedIds (ids : List Nat)
  | refinementRequest (text : String)
deriving DecidableEq, Repr

/-- Embeds `StepValidationResult` from schemas.ts as used by service.ts and
validators.ts; `none` fields model absent (`undefined`) fields. -/
structure StepValidationResult where
  isReadyForNextStep : Bool
  currentStepData : Option CurrentStepData := none
  message : Option String := none
deriving DecidableEq, Repr

/-- ASCII lowercasing of one character, as `toLowerCase` acts on the ASCII
range (the inputs of interest here are ASCII). -/
def asciiLowerChar (c : Char) : Char :=
  if 'A' ≤ c ∧ c ≤ 'Z' then Char.ofNat (c.toNat + 32) else c

/-- Embeds `userInput.toLowerCase().trim()` from `SimpleRuleValidator.validateStep`:
lowercase every character, then drop leading and trailing whitespace. -/
def jsCleanInput (s : String) : String :=
  let lowered := s.data.map asciiLowerChar
  String.mk (((lowered.dropWhile Char.isWhitespace).reverse.dropWhile
    Char.isWhitespace).reverse)

/-- Embeds `SimpleRuleValidator.validateStep` from validators.ts (lines 103-190).
The individual regular expressions are modelled as Boolean tests on the
cleaned (lowercased, trimmed) input; the two lists are in source order and a
break-on-first-match loop is `List.find?`. The unused `step` and
`previousStepOutput` parameters of the source method are omitted. -/
def simpleValidateStep (proceedPatterns refinementPatterns : List (String → Bool))
    (userInput : String) : StepValidationResult :=
  let cleanInput := jsCleanInput userInput
  let base : StepValidationResult :=
    { isReadyForNextStep := false,
      message := some "Please provide clearer instructions on how to proceed." }
  let afterProceed : StepValidationResult :=
    match proceedPatterns.find? (fun p => p cleanInput) with
    | some _ =>
      let numbers := extractDigitRuns cleanInput
      { isReadyForNextStep := true,
        message := some "Ready to proceed to the next step.",
        currentStepData :=
          if numbers.isEmpty then none else some (.selectedIds numbers) }
    | none => base
  match refinementPatterns.find? (fun p => p cleanInput) with
  | some _ =>
    { afterProceed with
      isReadyForNextStep := false,
      message := some "User is requesting refinements or has questions.",
      currentStepData := some (.refinementRequest cleanInput) }
  | none => afterProceed

/-- The parsed object produced inside `LLMStepValidator.validateStep` by the
model invocation plus JSON parse (`isReadyForNextStep` is recorded after the
`Boolean(...)` coercion the source applies). -/
structure LLMParsedResult where
  isReadyForNextStep : Bool
  currentStepData : Option CurrentStepData := none
  message : Option String := none
deriving DecidableEq, Repr

/-- JavaScript `x || undefined` on an optional string: the empty string is
falsy and collapses to `undefined`. -/
def jsStringOrUndefined (s : Option String) : Option String :=
  match s with
  | some t => if t = "" then none else some t
  | none => none

/-- Embeds `LLMStepValidator.validateStep` from validators.ts (lines 36-96).
`outcome` is the combined result of the model invocation and the JSON parse:
`none` models the invocation or the parse throwing, which the source catches.
The prompt-building arguments are irrelevant to the returned value and omitted. -/
def llmValidateStep (outcome : Option LLMParsedResult) : StepValidationResult :=
  match outcome with
  | some parsed =>
    { isReadyForNextStep := parsed.isReadyForNextStep,
      currentStepData := parsed.currentStepData,
      message := jsStringOrUndefined parsed.message }
  | none =>
    { isReadyForNextStep := false,
      message := some "Could not determine intent. Please clarify your choice." }

/-- The formatting lambda for generated task ideas in
`PerformanceTaskService.handleTaskIdeasStep`. -/
def formatTaskIdeaFull (idea : TaskIdea) : String :=
  "**Task " ++ toString idea.id ++ ": " ++ idea.title ++ "**\n" ++ idea.description ++
    "\n**Role:** " ++ idea.role ++ "\n**Audience:** " ++ idea.audience ++
    "\n**Purpose:** " ++ idea.purpose

/-- The formatting lambda for generated focus topics in
`PerformanceTaskService.handleFocusTopicsStep`. -/
def formatFocusTopicFull (t : FocusTopic) : String :=
  "**Topic " ++ toString t.id ++ ": " ++ t.topic ++ "**\n" ++ t.description

/-- The formatting lambda for selected focus topics in
`PerformanceTaskService.handleSelectFocusTopics`. -/
def formatFocusTopicBrief (t : FocusTopic) : String :=
  "**Topic " ++ toString t.id ++ ": " ++ t.topic ++ "**"

/-- The formatting lambda for generated product options in
`PerformanceTaskService.handleProductOptionsStep`. -/
def formatProductOptionFull (o : ProductOption) : String :=
  "**Option " ++ toString o.id ++ ": " ++ o.title ++ "**\n" ++ o.description

/-- The formatting lambda for selected product options in
`PerformanceTaskService.handleSelectProductOptions`. -/
def formatProductOptionBrief (o : ProductOption) : String :=
  "**Option " ++ toString o.id ++ ": " ++ o.title ++ "**"

/-- Embeds `PerformanceTaskService.handleSelectTaskIdea` from service.ts
(lines 184-204). -/
def handleSelectTaskIdea (m : PerformanceTaskMemory) (userInput : String) :
    PerformanceTaskMemory × String :=
  match firstDigitRun userInput with
  | none =>
    (m, "I\x27m not sure which task idea you\x27re selecting. Please provide the task number.")
  | some ideaId =>
    let taskIdeas := m.store.taskIdeas.getD []
    match taskIdeas.find? (fun idea => idea.id == ideaId) with
    | none =>
      (m, "I couldn\x27t find task idea " ++ toString ideaId ++
        ". Please select a valid task number.")
    | some selectedIdea =>
      let m := { m with store := { m.store with selectedTaskIdea := some selectedIdea } }
      let m := m.setCurrentStep .focus_topics
      (m, "Great choice! You\x27ve selected:\n\n**" ++ selectedIdea.title ++ "**\n" ++
        selectedIdea.description ++
        "\n\nNow, let\x27s identify some focus topics for this performance task. What specific content areas should students explore?")

/-- Embeds `PerformanceTaskService.handleTaskIdeasStep` from service.ts
(lines 163-179). `chainResult` is what `chain.invoke` returns; `none` models
the invocation throwing, in which case no state is written and the error
propagates to the caller (the `catch` in `processMessage`). -/
def handleTaskIdeasStep (m : PerformanceTaskMemory) (_userInput : String)
    (chainResult : Option TaskIdeas) : Option (PerformanceTaskMemory × String) :=
  chainResult.map (fun taskIdeas =>
    let m := { m with store := { m.store with taskIdeas := some taskIdeas.ideas } }
    let formattedIdeas := String.intercalate "\n\n" (taskIdeas.ideas.map formatTaskIdeaFull)
    (m, "Based on the unit information, I\x27ve generated these performance task ideas:\n\n" ++
      formattedIdeas ++
      "\n\nWhich of these ideas resonates with you, or would you like me to refine them based on your feedback?"))

/-- Embeds `PerformanceTaskService.handleSelectFocusTopics` from service.ts
(lines 230-255). -/
def handleSelectFocusTopics (m : PerformanceTaskMemory) (userInput : String) :
    PerformanceTaskMemory × String :=
  let matchList := extractDigitRuns userInput
  if matchList.isEmpty then
    (m, "I\x27m not sure which topics you\x27re selecting. Please provide topic numbers.")
  else
    let topicIds := matchList
    let allTopics := m.store.focusTopics.getD []
    let selectedTopics := allTopics.filter (fun t => topicIds.contains t.id)
    if selectedTopics.isEmpty then
      (m, "I couldn\x27t find any of the topic numbers you specified. Please select valid topic numbers.")
    else
      let m := { m with store := { m.store with selectedFocusTopics := some selectedTopics } }
      let m := m.setCurrentStep .product_options
      let formattedTopics := String.intercalate "\n" (selectedTopics.map formatFocusTopicBrief)
      (m, "You\x27ve selected these focus topics:\n\n" ++ formattedTopics ++
        "\n\nNow, let\x27s consider product options for students to demonstrate their learning. What types of products would be engaging and accessible?")

/-- Embeds `PerformanceTaskService.handleFocusTopicsStep` from service.ts
(lines 209-225). Before any service call, `createFocusTopicsChain`
(chains.ts lines 118-121) deterministically throws when `selectedTaskIdea`
is absent; that throw propagates out of this handler like a chain failure. -/
def handleFocusTopicsStep (m : PerformanceTaskMemory) (_userInput : String)
    (chainResult : Option FocusTopics) : Option (PerformanceTaskMemory × String) :=
  match m.store.selectedTaskIdea with
  | none => none
  | some _ =>
  chainResult.map (fun focusTopics =>
    let m := { m with store := { m.store with focusTopics := some focusTopics.topics } }
    let formattedTopics := String.intercalate "\n\n" (focusTopics.topics.map formatFocusTopicFull)
    (m, "Here are some potential focus topics for this performance task:\n\n" ++
      formattedTopics ++
      "\n\nWhich topics would you like to include? You can select multiple by number (e.g., \"1, 3, and 5\")."))

/-- Embeds `PerformanceTaskService.handleSelectProductOptions` from service.ts
(lines 281-310). -/
def handleSelectProductOptions (m : PerformanceTaskMemory) (userInput : String) :
    PerformanceTaskMemory × String :=
  let matchList := extractDigitRuns userInput
  if matchList.isEmpty then
    (m, "I\x27m not sure which product options you\x27re selecting. Please provide option numbers.")
  else
    let optionIds := matchList
    let allOptions := m.store.productOptions.getD []
    let selectedOptions := allOptions.filter (fun o => optionIds.contains o.id)
    if selectedOptions.isEmpty then
      (m, "I couldn\x27t find any of the option numbers you specified. Please select valid option numbers.")
    else if selectedOptions.length > 4 then
      (m, "You\x27ve selected more than 4 product options. Please narrow your selection to 4 options.")
    else
      let m := { m with store := { m.store with selectedProductOptions := some selectedOptions } }
      let m := m.setCurrentStep .requirements
      let formattedOptions := String.intercalate "\n" (selectedOptions.map formatProductOptionBrief)
      (m, "You\x27ve selected these product options:\n\n" ++ formattedOptions ++
        "\n\nNow, let\x27s create the student-facing requirements. What essential skills should students demonstrate through this task?")

/-- Embeds `PerformanceTaskService.handleProductOptionsStep` from service.ts
(lines 260-276). Before any service call, `createProductOptionsChain`
(chains.ts lines 170-174) deterministically throws when `selectedTaskIdea`
is absent; that throw propagates out of this handler like a chain failure. -/
def handleProductOptionsStep (m : PerformanceTaskMemory) (_userInput : String)
    (chainResult : Option ProductOptions) : Option (PerformanceTaskMemory × String) :=
  match m.store.selectedTaskIdea with
  | none => none
  | some _ =>
  chainResult.map (fun productOptions =>
    let m := { m with store := { m.store with productOptions := some productOptions.options } }
    let formattedOptions :=
      String.intercalate "\n\n" (productOptions.options.map formatProductOptionFull)
    (m, "Here are product options for students to demonstrate their learning:\n\n" ++
      formattedOptions ++
      "\n\nWhich product options would you like to include? Please select four options by number."))

/-- The fixed apology returned by the `catch` in
`PerformanceTaskService.handleRequirementsStep`. -/
def requirementsApology : String :=
  "I\x27m having trouble generating the requirements for your performance task. Could you please provide more details about what skills you want students to demonstrate through this task?"

/-- Embeds `PerformanceTaskService.handleRequirementsStep` from service.ts
(lines 315-339). The body has its own try/catch: the deterministic throw of
`createRequirementsChain` when `selectedTaskIdea` is absent (chains.ts lines
235-240), a throwing chain invocation (`chainResult = none`) and a falsy
(empty) result all land in the catch, leaving all state unchanged. -/
def handleRequirementsStep (m : PerformanceTaskMemory) (_userInput : String)
    (chainResult : Option String) : PerformanceTaskMemory × String :=
  match m.store.selectedTaskIdea with
  | none => (m, requirementsApology)
  | some _ =>
  match chainResult with
  | none => (m, requirementsApology)
  | some result =>
    if result = "" then
      (m, requirementsApology)
    else
      let m := { m with store := { m.store with requirements := some result } }
      let m := m.setCurrentStep .rubric
      (m, "Here\x27s the start of your performance task:\n\n" ++ result ++
        "\n\nNow, let\x27s create a rubric to assess student work. What specific skills should we assess?")

/-- The fixed apology returned by the `catch` in
`PerformanceTaskService.handleRubricStep`. -/
def rubricApology : String :=
  "I\x27m having trouble generating the rubric. Could you provide more details about what skills you want to assess?"

/-- JavaScript falsiness of an optional string: absent or empty. -/
def jsFalsyStr (s : Option String) : Bool :=
  match s with
  | none => true
  | some t => t == ""

/-- Embeds `PerformanceTaskService.handleRubricStep` from service.ts
(lines 344-361). Its try/catch also covers the deterministic throw of
`createRubricChain` when `selectedTaskIdea` is absent or `requirements` is
absent or empty (chains.ts lines 311-317, a falsy-string check). -/
def handleRubricStep (m : PerformanceTaskMemory) (_userInput : String)
    (chainResult : Option String) : PerformanceTaskMemory × String :=
  if m.store.selectedTaskIdea.isNone || jsFalsyStr m.store.requirements then
    (m, rubricApology)
  else
  match chainResult with
  | none => (m, rubricApology)
  | some result =>
    let m := { m with store := { m.store with rubricInfo := some result } }
    let m := m.setCurrentStep .performance_task_complete
    (m, "Here\x27s the rubric for your performance task:\n\n" ++ result ++
      "\n\nThe performance task is now complete! Would you like to see the full performance task summary?")

/-- JavaScript `x || fallback` on a string value. -/
def jsStringOr (s fallback : String) : String :=
  if s = "" then fallback else s

/-- The first 100 UTF-16-ish units of a string: `s.substring(0, 100)` (modelled
on code points; the strings involved are plain text). -/
def substring100 (s : String) : String :=
  String.mk (s.data.take 100)

/-- The structured performance-task object literal built by
`PerformanceTaskService.handlePerformanceTaskCompleteStep` (lines 374-392) from
the stored selections (`selectedTaskIdea || {}` makes every field access on a
missing idea yield `undefined`, so `|| fallback` applies). -/
def assembledPerformanceTask (store : KVStore) : PerformanceTask :=
  let requirements := store.requirements.getD ""
  let rubricInfo := store.rubricInfo.getD ""
  let ideaTitle :=
    match store.selectedTaskIdea with
    | some idea => jsStringOr idea.title "Performance Task"
    | none => "Performance Task"
  let ideaDescription :=
    match store.selectedTaskIdea with
    | some idea => idea.description
    | none => ""
  let ideaPurpose :=
    match store.selectedTaskIdea with
    | some idea => idea.purpose
    | none => ""
  { title := ideaTitle,
    subtitle := ideaDescription,
    description := ideaDescription,
    purpose := ideaPurpose,
    requirements := requirements,
    successCriteria := requirements,
    suggestedFocusTopic := "",
    rubricTitle := "Performance Assessment Rubric",
    rubricDescription := "This rubric evaluates student mastery of key skills and understanding.",
    rubricCriteria :=
      [{ name := "Overall Performance",
         description :=
           substring100 (String.intercalate " " ((rubricInfo.splitOn "\n").take 3)) ++ "...",
         orderNumber := 0 }] }

/-- Embeds `PerformanceTaskService.handlePerformanceTaskCompleteStep` from service.ts
(lines 366-405): rebuilds the performance-task object from memory on every
call (no chain invocation), stores it on the unit record, and returns the
formatted text summary. The body's catch branch is unreachable because no
operation in it throws. -/
def handlePerformanceTaskCompleteStep (m : PerformanceTaskMemory) :
    PerformanceTaskMemory × String :=
  let requirements := m.store.requirements.getD ""
  let rubricInfo := m.store.rubricInfo.getD ""
  let performanceTask := assembledPerformanceTask m.store
  let m := { m with performanceTaskUnit :=
    { m.performanceTaskUnit with performanceTask := some performanceTask } }
  (m, "# Complete Performance Task Summary\n\n## Requirements\n" ++ requirements ++
    "\n\n## Rubric\n" ++ rubricInfo)

/-- What each `chain.invoke` call would produce this turn: the explicit model
of the external completion service. `none` models the invocation throwing
(timeout, rate limit, malformed output). -/
structure ChainEnv where
  taskIdeasResult : Option TaskIdeas := none
  focusTopicsResult : Option FocusTopics := none
  productOptionsResult : Option ProductOptions := none
  requirementsResult : Option String := none
  rubricResult : Option String := none
deriving DecidableEq, Repr

/-- The fixed message produced by the top-level `catch` of
`PerformanceTaskService.processMessage`. -/
def genericErrorMessage : String :=
  "Sorry, I encountered an error. Please try again."

/-- The top-level `catch` of `processMessage` applied to a candidate-generation
handler outcome: a thrown chain error becomes the generic error message and the
memory stays as it was when the handler threw. -/
def catchToError (m : PerformanceTaskMemory)
    (res : Option (PerformanceTaskMemory × String)) : PerformanceTaskMemory × String :=
  match res with
  | some out => out
  | none => (m, genericErrorMessage)

/-- Embeds `PerformanceTaskService.processMessage` from service.ts (lines 58-122).
The validator result is passed in explicitly (the service obtains it from the
configured validator; both implementations are embedded above and never throw),
and the completion service is modelled by `env`. The unused
`getPreviousStepOutput` value (only fed to the validator) is not recomputed
here. In the `TASK_IDEAS` selection branch, `selectedIds[0].toString()` on an
empty `selectedIds` array throws a TypeError that the top-level catch converts
into the generic error message. -/
def processMessage (m : PerformanceTaskMemory) (userMessage : String)
    (validationResult : StepValidationResult) (env : ChainEnv) :
    PerformanceTaskMemory × String :=
  let m := m.addMessage .user userMessage
  let outcome : PerformanceTaskMemory × String :=
    match m.performanceTaskUnit.currentStep with
    | .task_ideas =>
      match validationResult.isReadyForNextStep, validationResult.currentStepData with
      | true, some (.selectedIds ids) =>
        match ids with
        | [] => (m, genericErrorMessage)
        | i :: _ => handleSelectTaskIdea m (toString i)
      | _, _ => catchToError m (handleTaskIdeasStep m userMessage env.taskIdeasResult)
    | .focus_topics =>
      match validationResult.isReadyForNextStep, validationResult.currentStepData with
      | true, some (.selectedIds ids) =>
        handleSelectFocusTopics m (joinIds ids)
      | _, _ => catchToError m (handleFocusTopicsStep m userMessage env.focusTopicsResult)
    | .product_options =>
      match validationResult.isReadyForNextStep, validationResult.currentStepData with
      | true, some (.selectedIds ids) =>
        handleSelectProductOptions m (joinIds ids)
      | _, _ => catchToError m (handleProductOptionsStep m userMessage env.productOptionsResult)
    | .requirements => handleRequirementsStep m userMessage env.requirementsResult
    | .rubric => handleRubricStep m userMessage env.rubricResult
    | .performance_task_complete => handlePerformanceTaskCompleteStep m
  (outcome.1.addMessage .assistant outcome.2, outcome.2)

/-- The JSON body of the route response on the message-processing path of
`POST` in route.ts: the `performanceTask` field is attached only on the branch
that believes the session is on the final step. -/
structure RouteResponse where
  message : String
  performanceTask : Option JsonVal := none
deriving DecidableEq, Repr

/-- The condition at route.ts line 74:
`state.currentStep === PerformanceTaskStepType.PERFORMANCE_TASK_COMPLETE`,
where `state` is `session.getState()`, i.e. `memory.toJSON()`. A missing key
reads as `undefined` and is never strictly equal to a string constant. -/
def routeSeesCompleteStep (state : List (String × JsonVal)) : Bool :=
  match jsonLookup state "currentStep" with
  | some (.strVal s) => s == "performance_task_complete"
  | _ => false

/-- The message-processing branch of `POST` in route.ts (lines 48-81, normal
path without `isPerformanceTaskSummaryRequest`): process the message, then
re-read the state and attach `state.performanceTask` when the state claims to
be on the final step. -/
def routeProcessMessage (m : PerformanceTaskMemory) (message : String)
    (validationResult : StepValidationResult) (env : ChainEnv) :
    PerformanceTaskMemory × RouteResponse :=
  let result := processMessage m message validationResult env
  let state := result.1.toJSON
  if routeSeesCompleteStep state then
    (result.1, { message := result.2, performanceTask := jsonLookup state "performanceTask" })
  else
    (result.1, { message := result.2 })

@[simp]
lemma addMessage_performanceTaskUnit (m : PerformanceTaskMemory) (r : ChatRole) (c : String) :
    (m.addMessage r c).performanceTaskUnit = m.performanceTaskUnit := rfl

@[simp]
lemma addMessage_store (m : PerformanceTaskMemory) (r : ChatRole) (c : String) :
    (m.addMessage r c).store = m.store := rfl

@[simp]
lemma setCurrentStep_currentStep (m : PerformanceTaskMemory) (s : PerformanceTaskStepType) :
    (m.setCurrentStep s).performanceTaskUnit.currentStep = s := rfl

/-- The task-idea selection handler keeps the step or moves it to
`focus_topics`, never anywhere else. -/
lemma handleSelectTaskIdea_step (m : PerformanceTaskMemory) (inp : String) :
    (handleSelectTaskIdea m inp).1.performanceTaskUnit.currentStep =
        m.performanceTaskUnit.currentStep ∨
    (handleSelectTaskIdea m inp).1.performanceTaskUnit.currentStep = .focus_topics := by
  unfold handleSelectTaskIdea
  dsimp only
  split
  · exact Or.inl rfl
  · split
    · exact Or.inl rfl
    · exact Or.inr rfl

/-- The focus-topic selection handler keeps the step or moves it to
`product_options`. -/
lemma handleSelectFocusTopics_step (m : PerformanceTaskMemory) (inp : String) :
    (handleSelectFocusTopics m inp).1.performanceTaskUnit.currentStep =
        m.performanceTaskUnit.currentStep ∨
    (handleSelectFocusTopics m inp).1.performanceTaskUnit.currentStep = .product_options := by
  unfold handleSelectFocusTopics
  dsimp only
  split
  · exact Or.inl rfl
  · split
    · exact Or.inl rfl
    · exact Or.inr rfl

/-- The product-option selection handler keeps the step or moves it to
`requirements`. -/
lemma handleSelectProductOptions_step (m : PerformanceTaskMemory) (inp : String) :
    (handleSelectProductOptions m inp).1.performanceTaskUnit.currentStep =
        m.performanceTaskUnit.currentStep ∨
    (handleSelectProductOptions m inp).1.performanceTaskUnit.currentStep = .requirements := by
  unfold handleSelectProductOptions
  dsimp only
  split
  · exact Or.inl rfl
  · split
    · exact Or.inl rfl
    · split
      · exact Or.inl rfl
      · exact Or.inr rfl

/-- A candidate-generation turn (including a failed one) never changes the
step: task-ideas case. -/
lemma handleTaskIdeasStep_step (m : PerformanceTaskMemory) (u : String) (r : Option TaskIdeas) :
    (catchToError m (handleTaskIdeasStep m u r)).1.performanceTaskUnit.currentStep =
      m.performanceTaskUnit.currentStep := by
  cases r <;> rfl

/-- A candidate-generation turn never changes the step: focus-topics case. -/
lemma handleFocusTopicsStep_step (m : PerformanceTaskMemory) (u : String) (r : Option FocusTopics) :
    (catchToError m (handleFocusTopicsStep m u r)).1.performanceTaskUnit.currentStep =
      m.performanceTaskUnit.currentStep := by
  rcases hsel : m.store.selectedTaskIdea with _ | idea <;>
    simp only [handleFocusTopicsStep, hsel] <;> cases r <;> rfl

/-- A candidate-generation turn never changes the step: product-options case. -/
lemma handleProductOptionsStep_step (m : PerformanceTaskMemory) (u : String)
    (r : Option ProductOptions) :
    (catchToError m (handleProductOptionsStep m u r)).1.performanceTaskUnit.currentStep =
      m.performanceTaskUnit.currentStep := by
  rcases hsel : m.store.selectedTaskIdea with _ | idea <;>
    simp only [handleProductOptionsStep, hsel] <;> cases r <;> rfl

/-- The requirements turn keeps the step or moves it to `rubric`. -/
lemma handleRequirementsStep_step (m : PerformanceTaskMemory) (u : String) (r : Option String) :
    (handleRequirementsStep m u r).1.performanceTaskUnit.currentStep =
        m.performanceTaskUnit.currentStep ∨
    (handleRequirementsStep m u r).1.performanceTaskUnit.currentStep = .rubric := by
  unfold handleRequirementsStep
  dsimp only
  (repeat' split) <;> first | exact Or.inl rfl | exact Or.inr rfl

/-- The rubric turn keeps the step or moves it to `performance_task_complete`. -/
lemma handleRubricStep_step (m : PerformanceTaskMemory) (u : String) (r : Option String) :
    (handleRubricStep m u r).1.performanceTaskUnit.currentStep =
        m.performanceTaskUnit.currentStep ∨
    (handleRubricStep m u r).1.performanceTaskUnit.currentStep = .performance_task_complete := by
  unfold handleRubricStep
  dsimp only
  (repeat' split) <;> first | exact Or.inl rfl | exact Or.inr rfl

/-- The terminal-step handler never changes the step. -/
lemma handlePerformanceTaskCompleteStep_step (m : PerformanceTaskMemory) :
    (handlePerformanceTaskCompleteStep m).1.performanceTaskUnit.currentStep =
      m.performanceTaskUnit.currentStep := rfl

/-- C1: for every session, processing a user message either leaves
`currentStep` where it was or advances it to the immediately next step in the
fixed ordering `task_ideas, focus_topics, product_options, requirements,
rubric, performance_task_complete`; it never moves backward and never skips a
step, for any validator verdict and any behaviour of the completion service. -/
theorem processMessage_currentStep_forward (m : PerformanceTaskMemory) (msg : String)
    (v : StepValidationResult) (env : ChainEnv) :
    stepIndex (processMessage m msg v env).1.performanceTaskUnit.currentStep =
        stepIndex m.performanceTaskUnit.currentStep ∨
    stepIndex (processMessage m msg v env).1.performanceTaskUnit.currentStep =
        stepIndex m.performanceTaskUnit.currentStep + 1 := by
  obtain ⟨s, ⟨topic, step, pt, ui⟩, hist⟩ := m
  rcases v with ⟨ready, data, vmsg⟩
  cases step <;> cases ready <;> rcases data with _ | ids | txt <;>
      simp only [processMessage, addMessage_performanceTaskUnit] <;>
    first
    | (cases ids with
       | nil => simp [stepIndex]
       | cons i rest =>
         rcases handleSelectTaskIdea_step
             ((⟨s, ⟨topic, .task_ideas, pt, ui⟩, hist⟩ : PerformanceTaskMemory).addMessage
               .user msg)
             (toString i) with h | h <;> rw [h] <;> simp [stepIndex])
    | (rcases handleSelectFocusTopics_step
          ((⟨s, ⟨topic, .focus_topics, pt, ui⟩, hist⟩ : PerformanceTaskMemory).addMessage .user msg)
          (joinIds ids) with h | h <;> rw [h] <;> simp [stepIndex])
    | (rcases handleSelectProductOptions_step
          ((⟨s, ⟨topic, .product_options, pt, ui⟩, hist⟩ : PerformanceTaskMemory).addMessage .user msg)
          (joinIds ids) with h | h <;> rw [h] <;> simp [stepIndex])
    | (rw [handleTaskIdeasStep_step]; simp [stepIndex])
    | (rw [handleFocusTopicsStep_step]; simp [stepIndex])
    | (rw [handleProductOptionsStep_step]; simp [stepIndex])
    | (rcases handleRequirementsStep_step
          ((⟨s, ⟨topic, .requirements, pt, ui⟩, hist⟩ : PerformanceTaskMemory).addMessage .user msg)
          msg env.requirementsResult with h | h <;> rw [h] <;> simp [stepIndex])
    | (rcases handleRubricStep_step
          ((⟨s, ⟨topic, .rubric, pt, ui⟩, hist⟩ : PerformanceTaskMemory).addMessage .user msg)
          msg env.rubricResult with h | h <;> rw [h] <;> simp [stepIndex])
    | (rw [handlePerformanceTaskCompleteStep_step]; simp [stepIndex])

/-- C2 counterexample: with a session at the `rubric` step, asking the memory
to set the step back to `task_ideas` does not fail and does not leave
`currentStep` unchanged — the backward assignment simply happens (no
`InvalidTransitionError` exists anywhere in the code). -/
theorem setCurrentStep_backward_no_error :
    (PerformanceTaskMemory.setCurrentStep
        { store := {},
          performanceTaskUnit := { topic := "Space Exploration", currentStep := .rubric },
          conversationHistory := [] }
        .task_ideas).performanceTaskUnit.currentStep = PerformanceTaskStepType.task_ideas ∧
    PerformanceTaskStepType.task_ideas ≠ PerformanceTaskStepType.rubric := by
  decide

/-- C2 (amended): `setCurrentStep` performs no validation at all: for every
memory state and every requested step — including one that precedes the
current step in the fixed ordering — it sets `currentStep` to the requested
step, changes nothing else, and signals no error. The forward-only invariant
holds only because every call site passes the immediate successor step. -/
theorem setCurrentStep_unconditional (m : PerformanceTaskMemory)
    (s : PerformanceTaskStepType) :
    (m.setCurrentStep s).performanceTaskUnit.currentStep = s ∧
    (m.setCurrentStep s).store = m.store ∧
    (m.setCurrentStep s).conversationHistory = m.conversationHistory ∧
    (m.setCurrentStep s).performanceTaskUnit.topic = m.performanceTaskUnit.topic ∧
    (m.setCurrentStep s).performanceTaskUnit.performanceTask =
      m.performanceTaskUnit.performanceTask ∧
    (m.setCurrentStep s).performanceTaskUnit.unitInfo = m.performanceTaskUnit.unitInfo :=
  ⟨rfl, rfl, rfl, rfl, rfl, rfl⟩

/-- C3 counterexample: the summary is not assembled at terminal entry. At the
`rubric` step of a session that holds a selected task idea and requirements
(so `createRubricChain`'s prerequisite check passes), a successful rubric
generation moves `currentStep` to `performance_task_complete` (the
terminal-entry transition), yet the stored `performanceTask` is still absent
afterwards; it is only assembled by later turns processed while in the
terminal step. -/
theorem terminal_entry_no_summary_assembled :
    ((processMessage
        { store := { selectedTaskIdea := some ⟨2, "Mars Exhibit", "Design an exhibit",
              "Curator", "Visitors", "Showcase learning"⟩,
                     requirements := some "REQ" },
          performanceTaskUnit := { topic := "Space", currentStep := .rubric },
          conversationHistory := [] }
        "looks good" { isReadyForNextStep := false }
        { rubricResult := some "RUB" }).1.performanceTaskUnit.currentStep =
      PerformanceTaskStepType.performance_task_complete) ∧
    ((processMessage
        { store := { selectedTaskIdea := some ⟨2, "Mars Exhibit", "Design an exhibit",
              "Curator", "Visitors", "Showcase learning"⟩,
                     requirements := some "REQ" },
          performanceTaskUnit := { topic := "Space", currentStep := .rubric },
          conversationHistory := [] }
        "looks good" { isReadyForNextStep := false }
        { rubricResult := some "RUB" }).1.performanceTaskUnit.performanceTask = none) := by
  decide

/-- C3 (amended): once `currentStep` is `performance_task_complete`, a turn is
completely independent of the validator verdict and of the completion service
(which is never invoked), repeated turns return the same summary text and
leave the same `performanceTask` object, and the step and the key/value store
never change; however the summary object is (re)assembled from the stored
data on each such turn — the first assembly happens on the first message
processed while in the terminal step, not at terminal entry. -/
theorem complete_step_idempotent (m : PerformanceTaskMemory) (msg msg2 : String)
    (v v2 v3 : StepValidationResult) (env env2 env3 : ChainEnv)
    (h : m.performanceTaskUnit.currentStep = .performance_task_complete) :
    processMessage m msg v env = processMessage m msg v2 env2 ∧
    (processMessage (processMessage m msg v env).1 msg2 v3 env3).2 =
      (processMessage m msg v env).2 ∧
    (processMessage (processMessage m msg v env).1 msg2 v3 env3).1.performanceTaskUnit.performanceTask =
      (processMessage m msg v env).1.performanceTaskUnit.performanceTask ∧
    (processMessage m msg v env).1.performanceTaskUnit.performanceTask =
      some (assembledPerformanceTask m.store) ∧
    (processMessage m msg v env).1.performanceTaskUnit.currentStep =
      .performance_task_complete ∧
    (processMessage m msg v env).1.store = m.store := by
  obtain ⟨s, ⟨topic, step, pt, ui⟩, hist⟩ := m
  dsimp only at h
  subst h
  exact ⟨rfl, rfl, rfl, rfl, rfl, rfl⟩

/-- Witness for the C3 theorem at a concrete terminal-step session. -/
theorem complete_step_idempotent_witness :
    processMessage
        { store := { requirements := some "REQ", rubricInfo := some "RUB" },
          performanceTaskUnit := { topic := "Space", currentStep := .performance_task_complete },
          conversationHistory := [] }
        "show it" { isReadyForNextStep := false } {} =
      processMessage
        { store := { requirements := some "REQ", rubricInfo := some "RUB" },
          performanceTaskUnit := { topic := "Space", currentStep := .performance_task_complete },
          conversationHistory := [] }
        "show it" { isReadyForNextStep := true } { rubricResult := some "OTHER" } :=
  (complete_step_idempotent
    { store := { requirements := some "REQ", rubricInfo := some "RUB" },
      performanceTaskUnit := { topic := "Space", currentStep := .performance_task_complete },
      conversationHistory := [] }
    "show it" "again" { isReadyForNextStep := false } { isReadyForNextStep := true }
    { isReadyForNextStep := false } {} { rubricResult := some "OTHER" } {} rfl).1

/-- C6: in the rule-based validator, refinement patterns are checked after
proceed patterns and take precedence — an input matched by some proceed
pattern and some refinement pattern classifies as not ready to advance — and
an input matched by no pattern at all yields the default not-ready result
with the prompt-for-clarification message. -/
theorem simpleValidateStep_precedence_and_default :
    (∀ (pp rp : List (String → Bool)) (input : String),
      (∃ p ∈ pp, p (jsCleanInput input) = true) →
      (∃ q ∈ rp, q (jsCleanInput input) = true) →
      (simpleValidateStep pp rp input).isReadyForNextStep = false ∧
      (simpleValidateStep pp rp input).message =
        some "User is requesting refinements or has questions.") ∧
    (∀ (pp rp : List (String → Bool)) (input : String),
      (∀ p ∈ pp, p (jsCleanInput input) = false) →
      (∀ q ∈ rp, q (jsCleanInput input) = false) →
      simpleValidateStep pp rp input =
        { isReadyForNextStep := false,
          currentStepData := none,
          message := some "Please provide clearer instructions on how to proceed." }) := by
  constructor
  · intro pp rp input _hp hq
    have hsome : (rp.find? (fun p => p (jsCleanInput input))).isSome := by
      rw [List.find?_isSome]
      obtain ⟨q, hq1, hq2⟩ := hq
      exact ⟨q, hq1, hq2⟩
    simp only [simpleValidateStep]
    rcases hfind : rp.find? (fun p => p (jsCleanInput input)) with _ | r
    · rw [hfind] at hsome
      simp at hsome
    · rw [hfind]
      exact ⟨rfl, rfl⟩
  · intro pp rp input hp hq
    have hpnone : pp.find? (fun p => p (jsCleanInput input)) = none := by
      rw [List.find?_eq_none]
      intro x hx
      simp [hp x hx]
    have hqnone : rp.find? (fun p => p (jsCleanInput input)) = none := by
      rw [List.find?_eq_none]
      intro x hx
      simp [hq x hx]
    simp only [simpleValidateStep]
    rw [hpnone, hqnone]

/-- A Boolean test standing in for the bare-number proceed pattern of the rule
validator: the input contains a digit. -/
def proceedTestHasDigit : String → Bool := fun s => !(extractDigitRuns s).isEmpty

/-- A Boolean test standing in for the ends-with-question-mark refinement
pattern of the rule validator. -/
def refinementTestQuestion : String → Bool := fun s => s.data.getLast? == some '?'

/-- Witness for the C6 theorem: the spec example input matches both a proceed
test and a refinement test and classifies as refinement; an input matching no
test yields the default. -/
theorem simpleValidateStep_precedence_witness :
    ((simpleValidateStep [proceedTestHasDigit] [refinementTestQuestion]
        "I like option 2 but can you change the wording?").isReadyForNextStep = false ∧
     (simpleValidateStep [proceedTestHasDigit] [refinementTestQuestion]
        "I like option 2 but can you change the wording?").message =
       some "User is requesting refinements or has questions.") ∧
    simpleValidateStep [proceedTestHasDigit] [refinementTestQuestion] "hello there" =
      { isReadyForNextStep := false,
        currentStepData := none,
        message := some "Please provide clearer instructions on how to proceed." } :=
  ⟨simpleValidateStep_precedence_and_default.1 [proceedTestHasDigit] [refinementTestQuestion]
      "I like option 2 but can you change the wording?" (by decide) (by decide),
   simpleValidateStep_precedence_and_default.2 [proceedTestHasDigit] [refinementTestQuestion]
      "hello there" (by decide) (by decide)⟩

/-- C7: when the model invocation or the parse of its response fails, the
model-based validator returns the fail-safe result: not ready to advance, with
the clarification message — an erroring classification can never cause an
advance. -/
theorem llmValidateStep_error_not_ready :
    llmValidateStep none =
      { isReadyForNextStep := false,
        currentStepData := none,
        message := some "Could not determine intent. Please clarify your choice." } := rfl

/-- C9: the route never attaches the performance task to its response — for
every session state and every turn the `performanceTask` field of the route
response is absent, even when `currentStep` is `performance_task_complete`
after processing (the route reads `state.currentStep`, but `toJSON` nests the
step under the `performanceTaskUnit` key, so the read yields `undefined`).
The second conjunct evaluates the route at a terminal-step session. -/
theorem route_summary_never_included :
    (∀ (m : PerformanceTaskMemory) (msg : String) (v : StepValidationResult) (env : ChainEnv),
      (routeProcessMessage m msg v env).2.performanceTask = none) ∧
    ((routeProcessMessage
        { store := { requirements := some "REQ", rubricInfo := some "RUB" },
          performanceTaskUnit := { topic := "Space", currentStep := .performance_task_complete },
          conversationHistory := [] }
        "show the summary" { isReadyForNextStep := false } {}).1.performanceTaskUnit.currentStep =
      PerformanceTaskStepType.performance_task_complete ∧
     (routeProcessMessage
        { store := { requirements := some "REQ", rubricInfo := some "RUB" },
          performanceTaskUnit := { topic := "Space", currentStep := .performance_task_complete },
          conversationHistory := [] }
        "show the summary" { isReadyForNextStep := false } {}).2.performanceTask = none) := by
  constructor
  · intro m msg v env
    rfl
  · decide

/-- History congruence for the task-idea selection handler. -/
lemma handleSelectTaskIdea_hist (s : KVStore) (u : PerformanceTaskUnit)
    (h1 h2 : List ChatMessage) (inp : String) :
    ((handleSelectTaskIdea ⟨s, u, h1⟩ inp).2 = (handleSelectTaskIdea ⟨s, u, h2⟩ inp).2) ∧
    ((handleSelectTaskIdea ⟨s, u, h1⟩ inp).1.store =
      (handleSelectTaskIdea ⟨s, u, h2⟩ inp).1.store) ∧
    ((handleSelectTaskIdea ⟨s, u, h1⟩ inp).1.performanceTaskUnit =
      (handleSelectTaskIdea ⟨s, u, h2⟩ inp).1.performanceTaskUnit) := by
  unfold handleSelectTaskIdea
  dsimp only
  (repeat' split) <;> exact ⟨rfl, rfl, rfl⟩

/-- History congruence for the focus-topic selection handler. -/
lemma handleSelectFocusTopics_hist (s : KVStore) (u : PerformanceTaskUnit)
    (h1 h2 : List ChatMessage) (inp : String) :
    ((handleSelectFocusTopics ⟨s, u, h1⟩ inp).2 = (handleSelectFocusTopics ⟨s, u, h2⟩ inp).2) ∧
    ((handleSelectFocusTopics ⟨s, u, h1⟩ inp).1.store =
      (handleSelectFocusTopics ⟨s, u, h2⟩ inp).1.store) ∧
    ((handleSelectFocusTopics ⟨s, u, h1⟩ inp).1.performanceTaskUnit =
      (handleSelectFocusTopics ⟨s, u, h2⟩ inp).1.performanceTaskUnit) := by
  unfold handleSelectFocusTopics
  dsimp only
  (repeat' split) <;> exact ⟨rfl, rfl, rfl⟩

/-- History congruence for the product-option selection handler. -/
lemma handleSelectProductOptions_hist (s : KVStore) (u : PerformanceTaskUnit)
    (h1 h2 : List ChatMessage) (inp : String) :
    ((handleSelectProductOptions ⟨s, u, h1⟩ inp).2 =
      (handleSelectProductOptions ⟨s, u, h2⟩ inp).2) ∧
    ((handleSelectProductOptions ⟨s, u, h1⟩ inp).1.store =
      (handleSelectProductOptions ⟨s, u, h2⟩ inp).1.store) ∧
    ((handleSelectProductOptions ⟨s, u, h1⟩ inp).1.performanceTaskUnit =
      (handleSelectProductOptions ⟨s, u, h2⟩ inp).1.performanceTaskUnit) := by
  unfold handleSelectProductOptions
  dsimp only
  (repeat' split) <;> exact ⟨rfl, rfl, rfl⟩

/-- History congruence for a (possibly failing) task-ideas generation turn. -/
lemma handleTaskIdeasStep_hist (s : KVStore) (u : PerformanceTaskUnit)
    (h1 h2 : List ChatMessage) (inp : String) (r : Option TaskIdeas) :
    ((catchToError ⟨s, u, h1⟩ (handleTaskIdeasStep ⟨s, u, h1⟩ inp r)).2 =
      (catchToError ⟨s, u, h2⟩ (handleTaskIdeasStep ⟨s, u, h2⟩ inp r)).2) ∧
    ((catchToError ⟨s, u, h1⟩ (handleTaskIdeasStep ⟨s, u, h1⟩ inp r)).1.store =
      (catchToError ⟨s, u, h2⟩ (handleTaskIdeasStep ⟨s, u, h2⟩ inp r)).1.store) ∧
    ((catchToError ⟨s, u, h1⟩ (handleTaskIdeasStep ⟨s, u, h1⟩ inp r)).1.performanceTaskUnit =
      (catchToError ⟨s, u, h2⟩ (handleTaskIdeasStep ⟨s, u, h2⟩ inp r)).1.performanceTaskUnit) := by
  cases r <;> exact ⟨rfl, rfl, rfl⟩

/-- History congruence for a (possibly failing) focus-topics generation turn. -/
lemma handleFocusTopicsStep_hist (s : KVStore) (u : PerformanceTaskUnit)
    (h1 h2 : List ChatMessage) (inp : String) (r : Option FocusTopics) :
    ((catchToError ⟨s, u, h1⟩ (handleFocusTopicsStep ⟨s, u, h1⟩ inp r)).2 =
      (catchToError ⟨s, u, h2⟩ (handleFocusTopicsStep ⟨s, u, h2⟩ inp r)).2) ∧
    ((catchToError ⟨s, u, h1⟩ (handleFocusTopicsStep ⟨s, u, h1⟩ inp r)).1.store =
      (catchToError ⟨s, u, h2⟩ (handleFocusTopicsStep ⟨s, u, h2⟩ inp r)).1.store) ∧
    ((catchToError ⟨s, u, h1⟩ (handleFocusTopicsStep ⟨s, u, h1⟩ inp r)).1.performanceTaskUnit =
      (catchToError ⟨s, u, h2⟩ (handleFocusTopicsStep ⟨s, u, h2⟩ inp r)).1.performanceTaskUnit) := by
  rcases hsel : s.selectedTaskIdea with _ | idea <;>
    simp only [handleFocusTopicsStep, hsel] <;> cases r <;> exact ⟨rfl, rfl, rfl⟩

/-- History congruence for a (possibly failing) product-options generation
turn. -/
lemma handleProductOptionsStep_hist (s : KVStore) (u : PerformanceTaskUnit)
    (h1 h2 : List ChatMessage) (inp : String) (r : Option ProductOptions) :
    ((catchToError ⟨s, u, h1⟩ (handleProductOptionsStep ⟨s, u, h1⟩ inp r)).2 =
      (catchToError ⟨s, u, h2⟩ (handleProductOptionsStep ⟨s, u, h2⟩ inp r)).2) ∧
    ((catchToError ⟨s, u, h1⟩ (handleProductOptionsStep ⟨s, u, h1⟩ inp r)).1.store =
      (catchToError ⟨s, u, h2⟩ (handleProductOptionsStep ⟨s, u, h2⟩ inp r)).1.store) ∧
    ((catchToError ⟨s, u, h1⟩ (handleProductOptionsStep ⟨s, u, h1⟩ inp r)).1.performanceTaskUnit =
      (catchToError ⟨s, u, h2⟩ (handleProductOptionsStep ⟨s, u, h2⟩ inp r)).1.performanceTaskUnit) := by
  rcases hsel : s.selectedTaskIdea with _ | idea <;>
    simp only [handleProductOptionsStep, hsel] <;> cases r <;> exact ⟨rfl, rfl, rfl⟩

/-- History congruence for the requirements turn. -/
lemma handleRequirementsStep_hist (s : KVStore) (u : PerformanceTaskUnit)
    (h1 h2 : List ChatMessage) (inp : String) (r : Option String) :
    ((handleRequirementsStep ⟨s, u, h1⟩ inp r).2 = (handleRequirementsStep ⟨s, u, h2⟩ inp r).2) ∧
    ((handleRequirementsStep ⟨s, u, h1⟩ inp r).1.store =
      (handleRequirementsStep ⟨s, u, h2⟩ inp r).1.store) ∧
    ((handleRequirementsStep ⟨s, u, h1⟩ inp r).1.performanceTaskUnit =
      (handleRequirementsStep ⟨s, u, h2⟩ inp r).1.performanceTaskUnit) := by
  unfold handleRequirementsStep
  dsimp only
  (repeat' split) <;> exact ⟨rfl, rfl, rfl⟩

/-- History congruence for the rubric turn. -/
lemma handleRubricStep_hist (s : KVStore) (u : PerformanceTaskUnit)
    (h1 h2 : List ChatMessage) (inp : String) (r : Option String) :
    ((handleRubricStep ⟨s, u, h1⟩ inp r).2 = (handleRubricStep ⟨s, u, h2⟩ inp r).2) ∧
    ((handleRubricStep ⟨s, u, h1⟩ inp r).1.store = (handleRubricStep ⟨s, u, h2⟩ inp r).1.store) ∧
    ((handleRubricStep ⟨s, u, h1⟩ inp r).1.performanceTaskUnit =
      (handleRubricStep ⟨s, u, h2⟩ inp r).1.performanceTaskUnit) := by
  unfold handleRubricStep
  dsimp only
  (repeat' split) <;> exact ⟨rfl, rfl, rfl⟩

/-- The response and the non-transcript state produced by a turn depend only
on the key/value store and the unit record, never on the conversation history
(no handler reads the transcript). -/
lemma processMessage_history_irrelevant (s : KVStore) (u : PerformanceTaskUnit)
    (h1 h2 : List ChatMessage) (msg : String) (v : StepValidationResult) (env : ChainEnv) :
    ((processMessage ⟨s, u, h1⟩ msg v env).2 = (processMessage ⟨s, u, h2⟩ msg v env).2) ∧
    ((processMessage ⟨s, u, h1⟩ msg v env).1.store =
      (processMessage ⟨s, u, h2⟩ msg v env).1.store) ∧
    ((processMessage ⟨s, u, h1⟩ msg v env).1.performanceTaskUnit =
      (processMessage ⟨s, u, h2⟩ msg v env).1.performanceTaskUnit) := by
  obtain ⟨topic, step, pt, ui⟩ := u
  rcases v with ⟨ready, data, vmsg⟩
  cases step <;> cases ready <;> rcases data with _ | ids | txt <;>
      simp only [processMessage, PerformanceTaskMemory.addMessage, addMessage_store,
        addMessage_performanceTaskUnit] <;>
    first
    | (cases ids with
       | nil => exact ⟨rfl, rfl, rfl⟩
       | cons i rest =>
         exact handleSelectTaskIdea_hist s ⟨topic, .task_ideas, pt, ui⟩
           (h1 ++ [⟨.user, msg⟩]) (h2 ++ [⟨.user, msg⟩]) (toString i))
    | exact handleSelectFocusTopics_hist s ⟨topic, .focus_topics, pt, ui⟩
        (h1 ++ [⟨.user, msg⟩]) (h2 ++ [⟨.user, msg⟩]) (joinIds ids)
    | exact handleSelectProductOptions_hist s ⟨topic, .product_options, pt, ui⟩
        (h1 ++ [⟨.user, msg⟩]) (h2 ++ [⟨.user, msg⟩]) (joinIds ids)
    | exact handleTaskIdeasStep_hist s ⟨topic, .task_ideas, pt, ui⟩
        (h1 ++ [⟨.user, msg⟩]) (h2 ++ [⟨.user, msg⟩]) msg env.taskIdeasResult
    | exact handleFocusTopicsStep_hist s ⟨topic, .focus_topics, pt, ui⟩
        (h1 ++ [⟨.user, msg⟩]) (h2 ++ [⟨.user, msg⟩]) msg env.focusTopicsResult
    | exact handleProductOptionsStep_hist s ⟨topic, .product_options, pt, ui⟩
        (h1 ++ [⟨.user, msg⟩]) (h2 ++ [⟨.user, msg⟩]) msg env.productOptionsResult
    | exact handleRequirementsStep_hist s ⟨topic, .requirements, pt, ui⟩
        (h1 ++ [⟨.user, msg⟩]) (h2 ++ [⟨.user, msg⟩]) msg env.requirementsResult
    | exact handleRubricStep_hist s ⟨topic, .rubric, pt, ui⟩
        (h1 ++ [⟨.user, msg⟩]) (h2 ++ [⟨.user, msg⟩]) msg env.rubricResult
    | exact ⟨rfl, rfl, rfl⟩

/-- C8 counterexample: a completion-service failure during the `TASK_IDEAS`
generate transition yields the fixed generic apology of the top-level catch,
which is not one of the messages that ask for more detail; the claim's
"asks for more detail" wording only holds at the `REQUIREMENTS` and `RUBRIC`
steps. The step still does not advance. -/
theorem generate_failure_generic_apology_at_task_ideas :
    ((processMessage
        { store := {},
          performanceTaskUnit := { topic := "Space", currentStep := .task_ideas },
          conversationHistory := [] }
        "start with ideas" { isReadyForNextStep := false } {}).2 = genericErrorMessage) ∧
    genericErrorMessage ≠ requirementsApology ∧
    genericErrorMessage ≠ rubricApology ∧
    ((processMessage
        { store := {},
          performanceTaskUnit := { topic := "Space", currentStep := .task_ideas },
          conversationHistory := [] }
        "start with ideas" { isReadyForNextStep := false } {}).1.performanceTaskUnit.currentStep =
      PerformanceTaskStepType.task_ideas) := by
  refine ⟨rfl, ?_, ?_, rfl⟩ <;> decide

/-- A failed (or prerequisite-blocked) focus-topics generation yields no
result: the handler is equivalent to a throw either way. -/
lemma handleFocusTopicsStep_none (m : PerformanceTaskMemory) (inp : String) :
    handleFocusTopicsStep m inp none = none := by
  unfold handleFocusTopicsStep
  dsimp only
  split <;> rfl

/-- A failed (or prerequisite-blocked) product-options generation yields no
result. -/
lemma handleProductOptionsStep_none (m : PerformanceTaskMemory) (inp : String) :
    handleProductOptionsStep m inp none = none := by
  unfold handleProductOptionsStep
  dsimp only
  split <;> rfl

/-- A failed requirements generation returns the fixed apology with the
memory untouched, whether the failure is the chain invocation throwing or the
factory's prerequisite throw. -/
lemma handleRequirementsStep_none (m : PerformanceTaskMemory) (inp : String) :
    handleRequirementsStep m inp none = (m, requirementsApology) := by
  unfold handleRequirementsStep
  dsimp only
  (repeat' split) <;> rfl

/-- A failed rubric generation returns the fixed apology with the memory
untouched. -/
lemma handleRubricStep_none (m : PerformanceTaskMemory) (inp : String) :
    handleRubricStep m inp none = (m, rubricApology) := by
  unfold handleRubricStep
  dsimp only
  (repeat' split) <;> rfl

/-- C8 (amended): every completion-service failure during a generate
transition is caught and converted into that step's fixed apologetic message
(the generic retry apology at the three candidate-generation steps, the
more-detail requests at `REQUIREMENTS` and `RUBRIC`), the step and the
key/value store are left unchanged (only the transcript grows), and a
resubmission after a failed `REQUIREMENTS` turn behaves exactly like the same
message sent from the pre-failure state — a fresh attempt with no
special-casing. The candidate-step conjuncts cover the whole generate branch:
a not-ready verdict, or any ready verdict whose data carries no selected ids
(such as the rule validator's result for "yes"). -/
theorem generate_failure_caught_no_advance :
    (∀ (m : PerformanceTaskMemory) (msg : String) (v : StepValidationResult) (env : ChainEnv),
      m.performanceTaskUnit.currentStep = .task_ideas →
      (v.isReadyForNextStep = false ∨
        ∀ ids, v.currentStepData ≠ some (.selectedIds ids)) →
      env.taskIdeasResult = none →
      processMessage m msg v env =
        ({ m with conversationHistory := m.conversationHistory ++
            [⟨.user, msg⟩, ⟨.assistant, genericErrorMessage⟩] }, genericErrorMessage)) ∧
    (∀ (m : PerformanceTaskMemory) (msg : String) (v : StepValidationResult) (env : ChainEnv),
      m.performanceTaskUnit.currentStep = .focus_topics →
      (v.isReadyForNextStep = false ∨
        ∀ ids, v.currentStepData ≠ some (.selectedIds ids)) →
      env.focusTopicsResult = none →
      processMessage m msg v env =
        ({ m with conversationHistory := m.conversationHistory ++
            [⟨.user, msg⟩, ⟨.assistant, genericErrorMessage⟩] }, genericErrorMessage)) ∧
    (∀ (m : PerformanceTaskMemory) (msg : String) (v : StepValidationResult) (env : ChainEnv),
      m.performanceTaskUnit.currentStep = .product_options →
      (v.isReadyForNextStep = false ∨
        ∀ ids, v.currentStepData ≠ some (.selectedIds ids)) →
      env.productOptionsResult = none →
      processMessage m msg v env =
        ({ m with conversationHistory := m.conversationHistory ++
            [⟨.user, msg⟩, ⟨.assistant, genericErrorMessage⟩] }, genericErrorMessage)) ∧
    (∀ (m : PerformanceTaskMemory) (msg : String) (v : StepValidationResult) (env : ChainEnv),
      m.performanceTaskUnit.currentStep = .requirements →
      env.requirementsResult = none →
      processMessage m msg v env =
        ({ m with conversationHistory := m.conversationHistory ++
            [⟨.user, msg⟩, ⟨.assistant, requirementsApology⟩] }, requirementsApology)) ∧
    (∀ (m : PerformanceTaskMemory) (msg : String) (v : StepValidationResult) (env : ChainEnv),
      m.performanceTaskUnit.currentStep = .rubric →
      env.rubricResult = none →
      processMessage m msg v env =
        ({ m with conversationHistory := m.conversationHistory ++
            [⟨.user, msg⟩, ⟨.assistant, rubricApology⟩] }, rubricApology)) ∧
    (∀ (m : PerformanceTaskMemory) (msg msg2 : String) (v v2 : StepValidationResult)
        (env env2 : ChainEnv),
      m.performanceTaskUnit.currentStep = .requirements →
      env.requirementsResult = none →
      ((processMessage (processMessage m msg v env).1 msg2 v2 env2).2 =
        (processMessage m msg2 v2 env2).2) ∧
      ((processMessage (processMessage m msg v env).1 msg2 v2 env2).1.store =
        (processMessage m msg2 v2 env2).1.store) ∧
      ((processMessage (processMessage m msg v env).1 msg2 v2 env2).1.performanceTaskUnit =
        (processMessage m msg2 v2 env2).1.performanceTaskUnit)) := by
  refine ⟨?_, ?_, ?_, ?_, ?_, ?_⟩
  · intro m msg v env hstep hv henv
    obtain ⟨s, ⟨topic, step, pt, ui⟩, hist⟩ := m
    rcases v with ⟨ready, data, vmsg⟩
    rcases env with ⟨e1, e2, e3, e4, e5⟩
    dsimp only at hstep hv henv
    subst hstep henv
    rcases hv with hv | hv
    · subst hv
      rcases data with _ | ids | txt <;>
        simp [processMessage, PerformanceTaskMemory.addMessage, catchToError,
          handleTaskIdeasStep, Option.map, List.append_assoc]
    · rcases data with _ | ids | txt
      · cases ready <;>
          simp [processMessage, PerformanceTaskMemory.addMessage, catchToError,
            handleTaskIdeasStep, Option.map, List.append_assoc]
      · exact absurd rfl (hv ids)
      · cases ready <;>
          simp [processMessage, PerformanceTaskMemory.addMessage, catchToError,
            handleTaskIdeasStep, Option.map, List.append_assoc]
  · intro m msg v env hstep hv henv
    obtain ⟨s, ⟨topic, step, pt, ui⟩, hist⟩ := m
    rcases v with ⟨ready, data, vmsg⟩
    rcases env with ⟨e1, e2, e3, e4, e5⟩
    dsimp only at hstep hv henv
    subst hstep henv
    rcases hv with hv | hv
    · subst hv
      rcases data with _ | ids | txt <;>
        simp [processMessage, PerformanceTaskMemory.addMessage, catchToError,
          handleFocusTopicsStep_none, List.append_assoc]
    · rcases data with _ | ids | txt
      · cases ready <;>
          simp [processMessage, PerformanceTaskMemory.addMessage, catchToError,
            handleFocusTopicsStep_none, List.append_assoc]
      · exact absurd rfl (hv ids)
      · cases ready <;>
          simp [processMessage, PerformanceTaskMemory.addMessage, catchToError,
            handleFocusTopicsStep_none, List.append_assoc]
  · intro m msg v env hstep hv henv
    obtain ⟨s, ⟨topic, step, pt, ui⟩, hist⟩ := m
    rcases v with ⟨ready, data, vmsg⟩
    rcases env with ⟨e1, e2, e3, e4, e5⟩
    dsimp only at hstep hv henv
    subst hstep henv
    rcases hv with hv | hv
    · subst hv
      rcases data with _ | ids | txt <;>
        simp [processMessage, PerformanceTaskMemory.addMessage, catchToError,
          handleProductOptionsStep_none, List.append_assoc]
    · rcases data with _ | ids | txt
      · cases ready <;>
          simp [processMessage, PerformanceTaskMemory.addMessage, catchToError,
            handleProductOptionsStep_none, List.append_assoc]
      · exact absurd rfl (hv ids)
      · cases ready <;>
          simp [processMessage, PerformanceTaskMemory.addMessage, catchToError,
            handleProductOptionsStep_none, List.append_assoc]
  · intro m msg v env hstep henv
    obtain ⟨s, ⟨topic, step, pt, ui⟩, hist⟩ := m
    rcases env with ⟨e1, e2, e3, e4, e5⟩
    dsimp only at hstep henv
    subst hstep henv
    simp [processMessage, PerformanceTaskMemory.addMessage,
      handleRequirementsStep_none, List.append_assoc]
  · intro m msg v env hstep henv
    obtain ⟨s, ⟨topic, step, pt, ui⟩, hist⟩ := m
    rcases env with ⟨e1, e2, e3, e4, e5⟩
    dsimp only at hstep henv
    subst hstep henv
    simp [processMessage, PerformanceTaskMemory.addMessage,
      handleRubricStep_none, List.append_assoc]
  · intro m msg msg2 v v2 env env2 hstep henv
    obtain ⟨s, ⟨topic, step, pt, ui⟩, hist⟩ := m
    rcases env with ⟨e1, e2, e3, e4, e5⟩
    dsimp only at hstep henv
    subst hstep henv
    have hred : (processMessage ⟨s, ⟨topic, .requirements, pt, ui⟩, hist⟩ msg v
        ⟨e1, e2, e3, none, e5⟩).1 =
        ⟨s, ⟨topic, .requirements, pt, ui⟩,
          (hist ++ [⟨.user, msg⟩]) ++ [⟨.assistant, requirementsApology⟩]⟩ := by
      simp only [processMessage, PerformanceTaskMemory.addMessage,
        handleRequirementsStep_none]
    rw [hred]
    exact processMessage_history_irrelevant s ⟨topic, .requirements, pt, ui⟩
      ((hist ++ [⟨.user, msg⟩]) ++ [⟨.assistant, requirementsApology⟩]) hist msg2 v2 env2

/-- Witness for the C8 theorem: a concrete failed `REQUIREMENTS` generation
turn returns the fixed more-detail apology and leaves the step at
`REQUIREMENTS`. -/
theorem generate_failure_caught_no_advance_witness :
    processMessage
        { store := {},
          performanceTaskUnit := { topic := "Space", currentStep := .requirements },
          conversationHistory := [] }
        "please generate the requirements" { isReadyForNextStep := false } {} =
      ({ store := {},
         performanceTaskUnit := { topic := "Space", currentStep := .requirements },
         conversationHistory :=
           [⟨.user, "please generate the requirements"⟩, ⟨.assistant, requirementsApology⟩] },
       requirementsApology) :=
  generate_failure_caught_no_advance.2.2.2.1
    { store := {},
      performanceTaskUnit := { topic := "Space", currentStep := .requirements },
      conversationHistory := [] }
    "please generate the requirements" { isReadyForNextStep := false } {} rfl rfl

/-- The validation result the rule validator produces for a purely numeric
selection message: ready to advance, with the extracted ids attached. -/
def selectionVerdict (ids : List Nat) : StepValidationResult :=
  { isReadyForNextStep := true,
    currentStepData := some (.selectedIds ids),
    message := some "Ready to proceed to the next step." }

/-- C4: at each selectable step whose candidate set has ids 1, 2, 3, a
selection naming only the absent id 5 changes nothing except the transcript —
the step does not advance, the corresponding selected-slot is not written —
and the turn answers with that step's "please select a valid number"
message. -/
theorem invalid_selection_never_advances :
    (∀ (m : PerformanceTaskMemory) (t1 t2 t3 : TaskIdea) (msg : String) (env : ChainEnv),
      m.performanceTaskUnit.currentStep = .task_ideas →
      m.store.taskIdeas = some [t1, t2, t3] →
      t1.id = 1 → t2.id = 2 → t3.id = 3 →
      processMessage m msg (selectionVerdict [5]) env =
        ({ m with conversationHistory := (m.conversationHistory ++ [⟨.user, msg⟩]) ++
            [⟨.assistant, "I couldn\x27t find task idea 5. Please select a valid task number."⟩] },
         "I couldn\x27t find task idea 5. Please select a valid task number.")) ∧
    (∀ (m : PerformanceTaskMemory) (f1 f2 f3 : FocusTopic) (msg : String) (env : ChainEnv),
      m.performanceTaskUnit.currentStep = .focus_topics →
      m.store.focusTopics = some [f1, f2, f3] →
      f1.id = 1 → f2.id = 2 → f3.id = 3 →
      processMessage m msg (selectionVerdict [5]) env =
        ({ m with conversationHistory := (m.conversationHistory ++ [⟨.user, msg⟩]) ++
            [⟨.assistant,
              "I couldn\x27t find any of the topic numbers you specified. Please select valid topic numbers."⟩] },
         "I couldn\x27t find any of the topic numbers you specified. Please select valid topic numbers.")) ∧
    (∀ (m : PerformanceTaskMemory) (p1 p2 p3 : ProductOption) (msg : String) (env : ChainEnv),
      m.performanceTaskUnit.currentStep = .product_options →
      m.store.productOptions = some [p1, p2, p3] →
      p1.id = 1 → p2.id = 2 → p3.id = 3 →
      processMessage m msg (selectionVerdict [5]) env =
        ({ m with conversationHistory := (m.conversationHistory ++ [⟨.user, msg⟩]) ++
            [⟨.assistant,
              "I couldn\x27t find any of the option numbers you specified. Please select valid option numbers."⟩] },
         "I couldn\x27t find any of the option numbers you specified. Please select valid option numbers.")) := by
  refine ⟨?_, ?_, ?_⟩
  · intro m t1 t2 t3 msg env hstep hstore h1 h2 h3
    obtain ⟨s, ⟨topic, step, pt, ui⟩, hist⟩ := m
    obtain ⟨kv1, kv2, kv3, kv4, kv5, kv6, kv7, kv8⟩ := s
    obtain ⟨i1, a1, a2, a3, a4, a5⟩ := t1
    obtain ⟨i2, b1, b2, b3, b4, b5⟩ := t2
    obtain ⟨i3, c1, c2, c3, c4, c5⟩ := t3
    dsimp only at hstep hstore h1 h2 h3
    subst hstep h1 h2 h3 hstore
    rfl
  · intro m f1 f2 f3 msg env hstep hstore h1 h2 h3
    obtain ⟨s, ⟨topic, step, pt, ui⟩, hist⟩ := m
    obtain ⟨kv1, kv2, kv3, kv4, kv5, kv6, kv7, kv8⟩ := s
    obtain ⟨i1, a1, a2⟩ := f1
    obtain ⟨i2, b1, b2⟩ := f2
    obtain ⟨i3, c1, c2⟩ := f3
    dsimp only at hstep hstore h1 h2 h3
    subst hstep h1 h2 h3 hstore
    rfl
  · intro m p1 p2 p3 msg env hstep hstore h1 h2 h3
    obtain ⟨s, ⟨topic, step, pt, ui⟩, hist⟩ := m
    obtain ⟨kv1, kv2, kv3, kv4, kv5, kv6, kv7, kv8⟩ := s
    obtain ⟨i1, a1, a2⟩ := p1
    obtain ⟨i2, b1, b2⟩ := p2
    obtain ⟨i3, c1, c2⟩ := p3
    dsimp only at hstep hstore h1 h2 h3
    subst hstep h1 h2 h3 hstore
    rfl

/-- Witness for the C4 theorem at a concrete task-ideas session. -/
theorem invalid_selection_never_advances_witness :
    processMessage
        { store := { taskIdeas := some [⟨1, "T1", "D1", "R1", "A1", "P1"⟩, ⟨2, "T2", "D2", "R2", "A2", "P2"⟩,
             ⟨3, "T3", "D3", "R3", "A3", "P3"⟩] },
          performanceTaskUnit := { topic := "Space", currentStep := .task_ideas },
          conversationHistory := [] }
        "5" (selectionVerdict [5]) {} =
      ({ store := { taskIdeas := some [⟨1, "T1", "D1", "R1", "A1", "P1"⟩, ⟨2, "T2", "D2", "R2", "A2", "P2"⟩,
             ⟨3, "T3", "D3", "R3", "A3", "P3"⟩] },
         performanceTaskUnit := { topic := "Space", currentStep := .task_ideas },
         conversationHistory :=
           [⟨.user, "5"⟩,
            ⟨.assistant, "I couldn\x27t find task idea 5. Please select a valid task number."⟩] },
       "I couldn\x27t find task idea 5. Please select a valid task number.") :=
  invalid_selection_never_advances.1
    { store := { taskIdeas := some [⟨1, "T1", "D1", "R1", "A1", "P1"⟩, ⟨2, "T2", "D2", "R2", "A2", "P2"⟩,
         ⟨3, "T3", "D3", "R3", "A3", "P3"⟩] },
      performanceTaskUnit := { topic := "Space", currentStep := .task_ideas },
      conversationHistory := [] }
    ⟨1, "T1", "D1", "R1", "A1", "P1"⟩ ⟨2, "T2", "D2", "R2", "A2", "P2"⟩
    ⟨3, "T3", "D3", "R3", "A3", "P3"⟩ "5" {} rfl rfl rfl rfl rfl

/-- C5: at the `PRODUCT_OPTIONS` step with candidate ids 1 through 6,
selecting the five valid ids 1..5 never advances — the turn answers with the
narrow-your-selection message and writes nothing — while selecting exactly
the four valid ids 1..4 stores those four options in
`selectedProductOptions` and advances `currentStep` to `requirements`. -/
theorem product_options_cap_enforced :
    (∀ (m : PerformanceTaskMemory) (o1 o2 o3 o4 o5 o6 : ProductOption) (msg : String)
        (env : ChainEnv),
      m.performanceTaskUnit.currentStep = .product_options →
      m.store.productOptions = some [o1, o2, o3, o4, o5, o6] →
      o1.id = 1 → o2.id = 2 → o3.id = 3 → o4.id = 4 → o5.id = 5 → o6.id = 6 →
      processMessage m msg (selectionVerdict [1, 2, 3, 4, 5]) env =
        ({ m with conversationHistory := (m.conversationHistory ++ [⟨.user, msg⟩]) ++
            [⟨.assistant,
              "You\x27ve selected more than 4 product options. Please narrow your selection to 4 options."⟩] },
         "You\x27ve selected more than 4 product options. Please narrow your selection to 4 options.")) ∧
    (∀ (m : PerformanceTaskMemory) (o1 o2 o3 o4 o5 o6 : ProductOption) (msg : String)
        (env : ChainEnv),
      m.performanceTaskUnit.currentStep = .product_options →
      m.store.productOptions = some [o1, o2, o3, o4, o5, o6] →
      o1.id = 1 → o2.id = 2 → o3.id = 3 → o4.id = 4 → o5.id = 5 → o6.id = 6 →
      processMessage m msg (selectionVerdict [1, 2, 3, 4]) env =
        ({ m with
            store := { m.store with selectedProductOptions := some [o1, o2, o3, o4] },
            performanceTaskUnit :=
              { m.performanceTaskUnit with currentStep := .requirements },
            conversationHistory := (m.conversationHistory ++ [⟨.user, msg⟩]) ++
              [⟨.assistant,
                "You\x27ve selected these product options:\n\n" ++
                  String.intercalate "\n" (List.map formatProductOptionBrief [o1, o2, o3, o4]) ++
                  "\n\nNow, let\x27s create the student-facing requirements. What essential skills should students demonstrate through this task?"⟩] },
         "You\x27ve selected these product options:\n\n" ++
           String.intercalate "\n" (List.map formatProductOptionBrief [o1, o2, o3, o4]) ++
           "\n\nNow, let\x27s create the student-facing requirements. What essential skills should students demonstrate through this task?")) := by
  constructor
  · intro m o1 o2 o3 o4 o5 o6 msg env hstep hstore h1 h2 h3 h4 h5 h6
    obtain ⟨s, ⟨topic, step, pt, ui⟩, hist⟩ := m
    obtain ⟨kv1, kv2, kv3, kv4, kv5, kv6, kv7, kv8⟩ := s
    obtain ⟨i1, a1, a2⟩ := o1
    obtain ⟨i2, b1, b2⟩ := o2
    obtain ⟨i3, c1, c2⟩ := o3
    obtain ⟨i4, d1, d2⟩ := o4
    obtain ⟨i5, e1, e2⟩ := o5
    obtain ⟨i6, g1, g2⟩ := o6
    dsimp only at hstep hstore h1 h2 h3 h4 h5 h6
    subst hstep h1 h2 h3 h4 h5 h6 hstore
    rfl
  · intro m o1 o2 o3 o4 o5 o6 msg env hstep hstore h1 h2 h3 h4 h5 h6
    obtain ⟨s, ⟨topic, step, pt, ui⟩, hist⟩ := m
    obtain ⟨kv1, kv2, kv3, kv4, kv5, kv6, kv7, kv8⟩ := s
    obtain ⟨i1, a1, a2⟩ := o1
    obtain ⟨i2, b1, b2⟩ := o2
    obtain ⟨i3, c1, c2⟩ := o3
    obtain ⟨i4, d1, d2⟩ := o4
    obtain ⟨i5, e1, e2⟩ := o5
    obtain ⟨i6, g1, g2⟩ := o6
    dsimp only at hstep hstore h1 h2 h3 h4 h5 h6
    subst hstep h1 h2 h3 h4 h5 h6 hstore
    rfl

/-- Witness for the C5 theorem at a concrete product-options session:
selecting five valid ids does not advance. -/
theorem product_options_cap_enforced_witness :
    processMessage
        { store := { productOptions := some [⟨1, "O1", "D1"⟩, ⟨2, "O2", "D2"⟩, ⟨3, "O3", "D3"⟩,
             ⟨4, "O4", "D4"⟩, ⟨5, "O5", "D5"⟩, ⟨6, "O6", "D6"⟩] },
          performanceTaskUnit := { topic := "Space", currentStep := .product_options },
          conversationHistory := [] }
        "1, 2, 3, 4, 5" (selectionVerdict [1, 2, 3, 4, 5]) {} =
      ({ store := { productOptions := some [⟨1, "O1", "D1"⟩, ⟨2, "O2", "D2"⟩, ⟨3, "O3", "D3"⟩,
             ⟨4, "O4", "D4"⟩, ⟨5, "O5", "D5"⟩, ⟨6, "O6", "D6"⟩] },
         performanceTaskUnit := { topic := "Space", currentStep := .product_options },
         conversationHistory :=
           [⟨.user, "1, 2, 3, 4, 5"⟩,
            ⟨.assistant,
             "You\x27ve selected more than 4 product options. Please narrow your selection to 4 options."⟩] },
       "You\x27ve selected more than 4 product options. Please narrow your selection to 4 options.") :=
  product_options_cap_enforced.1
    { store := { productOptions := some [⟨1, "O1", "D1"⟩, ⟨2, "O2", "D2"⟩, ⟨3, "O3", "D3"⟩,
         ⟨4, "O4", "D4"⟩, ⟨5, "O5", "D5"⟩, ⟨6, "O6", "D6"⟩] },
      performanceTaskUnit := { topic := "Space", currentStep := .product_options },
      conversationHistory := [] }
    ⟨1, "O1", "D1"⟩ ⟨2, "O2", "D2"⟩ ⟨3, "O3", "D3"⟩ ⟨4, "O4", "D4"⟩ ⟨5, "O5", "D5"⟩
    ⟨6, "O6", "D6"⟩ "1, 2, 3, 4, 5" {} rfl rfl rfl rfl rfl rfl rfl rfl

/-- C10 (implicit behaviour): at the multi-select steps, a selection mixing
one valid id (2) with an invalid id (7) silently drops the invalid id,
stores only the matching candidate, advances the step, and answers with the
normal confirmation message — not with a please-select-valid-numbers
response. -/
theorem mixed_selection_drops_invalid :
    (∀ (m : PerformanceTaskMemory) (f1 f2 f3 : FocusTopic) (msg : String) (env : ChainEnv),
      m.performanceTaskUnit.currentStep = .focus_topics →
      m.store.focusTopics = some [f1, f2, f3] →
      f1.id = 1 → f2.id = 2 → f3.id = 3 →
      processMessage m msg (selectionVerdict [2, 7]) env =
        ({ m with
            store := { m.store with selectedFocusTopics := some [f2] },
            performanceTaskUnit :=
              { m.performanceTaskUnit with currentStep := .product_options },
            conversationHistory := (m.conversationHistory ++ [⟨.user, msg⟩]) ++
              [⟨.assistant,
                "You\x27ve selected these focus topics:\n\n" ++
                  String.intercalate "\n" (List.map formatFocusTopicBrief [f2]) ++
                  "\n\nNow, let\x27s consider product options for students to demonstrate their learning. What types of products would be engaging and accessible?"⟩] },
         "You\x27ve selected these focus topics:\n\n" ++
           String.intercalate "\n" (List.map formatFocusTopicBrief [f2]) ++
           "\n\nNow, let\x27s consider product options for students to demonstrate their learning. What types of products would be engaging and accessible?")) ∧
    (∀ (m : PerformanceTaskMemory) (p1 p2 p3 : ProductOption) (msg : String) (env : ChainEnv),
      m.performanceTaskUnit.currentStep = .product_options →
      m.store.productOptions = some [p1, p2, p3] →
      p1.id = 1 → p2.id = 2 → p3.id = 3 →
      processMessage m msg (selectionVerdict [2, 7]) env =
        ({ m with
            store := { m.store with selectedProductOptions := some [p2] },
            performanceTaskUnit :=
              { m.performanceTaskUnit with currentStep := .requirements },
            conversationHistory := (m.conversationHistory ++ [⟨.user, msg⟩]) ++
              [⟨.assistant,
                "You\x27ve selected these product options:\n\n" ++
                  String.intercalate "\n" (List.map formatProductOptionBrief [p2]) ++
                  "\n\nNow, let\x27s create the student-facing requirements. What essential skills should students demonstrate through this task?"⟩] },
         "You\x27ve selected these product options:\n\n" ++
           String.intercalate "\n" (List.map formatProductOptionBrief [p2]) ++
           "\n\nNow, let\x27s create the student-facing requirements. What essential skills should students demonstrate through this task?")) := by
  constructor
  · intro m f1 f2 f3 msg env hstep hstore h1 h2 h3
    obtain ⟨s, ⟨topic, step, pt, ui⟩, hist⟩ := m
    obtain ⟨kv1, kv2, kv3, kv4, kv5, kv6, kv7, kv8⟩ := s
    obtain ⟨i1, a1, a2⟩ := f1
    obtain ⟨i2, b1, b2⟩ := f2
    obtain ⟨i3, c1, c2⟩ := f3
    dsimp only at hstep hstore h1 h2 h3
    subst hstep h1 h2 h3 hstore
    rfl
  · intro m p1 p2 p3 msg env hstep hstore h1 h2 h3
    obtain ⟨s, ⟨topic, step, pt, ui⟩, hist⟩ := m
    obtain ⟨kv1, kv2, kv3, kv4, kv5, kv6, kv7, kv8⟩ := s
    obtain ⟨i1, a1, a2⟩ := p1
    obtain ⟨i2, b1, b2⟩ := p2
    obtain ⟨i3, c1, c2⟩ := p3
    dsimp only at hstep hstore h1 h2 h3
    subst hstep h1 h2 h3 hstore
    rfl

/-- Witness for the C10 theorem at a concrete focus-topics session. -/
theorem mixed_selection_drops_invalid_witness :
    processMessage
        { store := { focusTopics := some [⟨1, "Gravity", "G"⟩, ⟨2, "Orbits", "O"⟩, ⟨3, "Rovers", "R"⟩] },
          performanceTaskUnit := { topic := "Space", currentStep := .focus_topics },
          conversationHistory := [] }
        "2 and 7" (selectionVerdict [2, 7]) {} =
      ({ store := { focusTopics := some [⟨1, "Gravity", "G"⟩, ⟨2, "Orbits", "O"⟩, ⟨3, "Rovers", "R"⟩],
                    selectedFocusTopics := some [⟨2, "Orbits", "O"⟩] },
         performanceTaskUnit := { topic := "Space", currentStep := .product_options },
         conversationHistory :=
           [⟨.user, "2 and 7"⟩,
            ⟨.assistant,
             "You\x27ve selected these focus topics:\n\n" ++
               String.intercalate "\n" (List.map formatFocusTopicBrief [⟨2, "Orbits", "O"⟩]) ++
               "\n\nNow, let\x27s consider product options for students to demonstrate their learning. What types of products would be engaging and accessible?"⟩] },
       "You\x27ve selected these focus topics:\n\n" ++
         String.intercalate "\n" (List.map formatFocusTopicBrief [⟨2, "Orbits", "O"⟩]) ++
         "\n\nNow, let\x27s consider product options for students to demonstrate their learning. What types of products would be engaging and accessible?") :=
  mixed_selection_drops_invalid.1
    { store := { focusTopics := some [⟨1, "Gravity", "G"⟩, ⟨2, "Orbits", "O"⟩, ⟨3, "Rovers", "R"⟩] },
      performanceTaskUnit := { topic := "Space", currentStep := .focus_topics },
      conversationHistory := [] }
    ⟨1, "Gravity", "G"⟩ ⟨2, "Orbits", "O"⟩ ⟨3, "Rovers", "R"⟩ "2 and 7" {} rfl rfl rfl rfl rfl
